import Mathlib

/-!
# Verification of the `ModelDBService` metadata-store contract and the
# `LocalBackend` run adapter of lume-services

Shallow embedding of `lume_services/services/models/service.py` and
`lume_services/scheduling/prefect/backends/local.py`.

Rows of the relational store are association lists from column names to
values.  The database driver (`ModelDB`), the column declarations
(`db/schema.py`), the kwargs validator (`utils.validate_kwargs_exist`) and
the error classes are not part of the given sources; they are modelled from
the specification where noted.  The service-level control flow (queries
built, branches on result length, errors raised, warnings logged) is
translated directly from `service.py`.
-/

/-- A database cell value: string, integer, boolean or NULL. -/
inductive Value where
  | vstr : String → Value
  | vint : Int → Value
  | vbool : Bool → Value
  | vnull : Value
deriving DecidableEq, Repr

/-- A row is an association list from column names to values. -/
abbrev Row : Type := List (String × Value)

/-- Look up a column of a row (first binding wins). -/
def Row.getVal : Row → String → Option Value
  | [], _ => none
  | (k1, v) :: rest, k => if k1 = k then some v else Row.getVal rest k

/-- Criteria supplied to a `get_*`/`filter_by` call: named equality filters. -/
abbrev Criteria : Type := List (String × Value)

/-- `filter_by(**kwargs)` semantics: the row satisfies every named equality. -/
def rowMatches (kwargs : Criteria) (r : Row) : Bool :=
  kwargs.all (fun kv => decide (r.getVal kv.1 = some kv.2))

/-- Modelled from the spec: declared columns of the `Model` table
(`db/schema.py` is not among the given sources).  §3: author, laboratory,
facility, beampath, description, auto id (`model_id` per `service.py`). -/
def modelColumns : List String :=
  ["model_id", "author", "laboratory", "facility", "beampath", "description"]

/-- Modelled from the spec: declared columns of the `Deployment` table. -/
def deploymentColumns : List String :=
  ["deployment_id", "model_id", "version", "source", "sha256", "image",
   "is_live", "asset_dir", "deploy_date"]

/-- Modelled from the spec: declared columns of the `Project` table. -/
def projectColumns : List String :=
  ["project_name", "description"]

/-- Modelled from the spec: declared columns of the `Flow` table. -/
def flowColumns : List String :=
  ["flow_id", "deployment_id", "flow_name", "project_name"]

/-- Modelled from the spec: declared columns of the `FlowOfFlows` table
(§3: composite id and reference to member flows). -/
def flowOfFlowsColumns : List String :=
  ["id", "parent_flow_id", "flow_id"]

/-- Modelled from the spec: `utils.validate_kwargs_exist` (not among the
given sources).  §4.1 validation policy: every supplied criterion name must
be a declared column of the target record type. -/
def validate_kwargs_exist (columns : List String) (kwargs : Criteria) : Bool :=
  kwargs.all (fun kv => decide (kv.1 ∈ columns))

/-- The error outcomes of the service layer: the per-entity not-found
errors of `lume_services.errors` and the validation failure raised by the
kwargs validator before a query is issued. -/
inductive ServiceError where
  | validationError
  | modelNotFound
  | deploymentNotFound
  | projectNotFound
  | flowNotFound
  | flowOfFlowsNotFound
  | driverError
  | fileNotFound
deriving DecidableEq, Repr

/-- A call to the database driver `ModelDB`: `select`, `insert` or
`insert_many`. -/
inductive DriverCall where
  | select
  | insert
  | insertMany
deriving DecidableEq, Repr

/-- A `FlowOfFlows` membership row together with its related member `Flow`
row (the SQLAlchemy `res.flow` relationship). -/
structure FofRow where
  cols : Row
  flow : Row
deriving DecidableEq

/-- A `DeploymentDependency` row together with its eagerly loaded
`DependencyType` row (`joinedload(DeploymentDependency.dependency_type)`). -/
structure DepRow where
  cols : Row
  dependency_type : Row
deriving DecidableEq

/-- The backing relational store: one list of rows per table, in the
driver's return order, plus the next auto-increment identifier. -/
structure DBState where
  models : List Row
  deployments : List Row
  projects : List Row
  flows : List Row
  flowOfFlows : List FofRow
  dependencies : List DepRow
  dependencyTypes : List Row
  nextId : Int
deriving DecidableEq

/-- The observable outcome of one service call: its returned value or
raised error, the store state afterwards, the driver calls it issued, the
warnings it logged, and whether a kwargs-validation step ran. -/
structure Outcome (α : Type) where
  result : Except ServiceError α
  state : DBState
  calls : List DriverCall
  warnings : List String
  validated : Bool

/-- `ModelDBService.get_model`: validates kwargs against the `Model`
columns, selects matching rows, raises `ModelNotFoundError` on zero rows,
logs a warning and returns the first row when several match. -/
def get_model (db : DBState) (kwargs : Criteria) : Outcome Row :=
  if validate_kwargs_exist modelColumns kwargs then
    match db.models.filter (rowMatches kwargs) with
    | [] =>
      { result := Except.error ServiceError.modelNotFound, state := db,
        calls := [DriverCall.select], warnings := [], validated := true }
    | r :: rest =>
      { result := Except.ok r, state := db, calls := [DriverCall.select],
        warnings :=
          if rest.length > 0 then
            ["Multiple models returned from query. get_model is returning the first result"]
          else [],
        validated := true }
  else
    { result := Except.error ServiceError.validationError, state := db,
      calls := [], warnings := [], validated := true }

/-- `ModelDBService.get_deployment`: same contract over `Deployment`,
raising `DeploymentNotFoundError` on zero rows. -/
def get_deployment (db : DBState) (kwargs : Criteria) : Outcome Row :=
  if validate_kwargs_exist deploymentColumns kwargs then
    match db.deployments.filter (rowMatches kwargs) with
    | [] =>
      { result := Except.error ServiceError.deploymentNotFound, state := db,
        calls := [DriverCall.select], warnings := [], validated := true }
    | r :: rest =>
      { result := Except.ok r, state := db, calls := [DriverCall.select],
        warnings :=
          if rest.length > 0 then
            ["Multiple deployments returned from query. get_deployment is returning the first result"]
          else [],
        validated := true }
  else
    { result := Except.error ServiceError.validationError, state := db,
      calls := [], warnings := [], validated := true }

/-- The `deploy_date` column of a deployment row, as an integer timestamp
(NULL or absent reads as 0 for ordering purposes). -/
def deployDate (r : Row) : Int :=
  match r.getVal "deploy_date" with
  | some (Value.vint n) => n
  | _ => 0

/-- `order_by(desc(Deployment.deploy_date))`: sort rows by `deploy_date`
descending. -/
def orderByDateDesc (rows : List Row) : List Row :=
  List.insertionSort (fun a b => deployDate b ≤ deployDate a) rows

/-- `ModelDBService.get_latest_deployment`: filters, orders by
`deploy_date` descending, and returns the first row; raises
`DeploymentNotFoundError` on zero rows.  No multiple-match warning is
logged here. -/
def get_latest_deployment (db : DBState) (kwargs : Criteria) : Outcome Row :=
  if validate_kwargs_exist deploymentColumns kwargs then
    match orderByDateDesc (db.deployments.filter (rowMatches kwargs)) with
    | [] =>
      { result := Except.error ServiceError.deploymentNotFound, state := db,
        calls := [DriverCall.select], warnings := [], validated := true }
    | r :: _ =>
      { result := Except.ok r, state := db, calls := [DriverCall.select],
        warnings := [], validated := true }
  else
    { result := Except.error ServiceError.validationError, state := db,
      calls := [], warnings := [], validated := true }

/-- `ModelDBService.get_project`: same contract over `Project`, raising
`ProjectNotFoundError` on zero rows. -/
def get_project (db : DBState) (kwargs : Criteria) : Outcome Row :=
  if validate_kwargs_exist projectColumns kwargs then
    match db.projects.filter (rowMatches kwargs) with
    | [] =>
      { result := Except.error ServiceError.projectNotFound, state := db,
        calls := [DriverCall.select], warnings := [], validated := true }
    | r :: rest =>
      { result := Except.ok r, state := db, calls := [DriverCall.select],
        warnings :=
          if rest.length > 0 then
            ["Multiple projects returned from query. get_project is returning the first result"]
          else [],
        validated := true }
  else
    { result := Except.error ServiceError.validationError, state := db,
      calls := [], warnings := [], validated := true }

/-- `ModelDBService.get_flow`: same contract over `Flow`, raising
`FlowNotFoundError` on zero rows. -/
def get_flow (db : DBState) (kwargs : Criteria) : Outcome Row :=
  if validate_kwargs_exist flowColumns kwargs then
    match db.flows.filter (rowMatches kwargs) with
    | [] =>
      { result := Except.error ServiceError.flowNotFound, state := db,
        calls := [DriverCall.select], warnings := [], validated := true }
    | r :: rest =>
      { result := Except.ok r, state := db, calls := [DriverCall.select],
        warnings :=
          if rest.length > 0 then
            ["Multiple flows returned from query. get_flow is returning the first result"]
          else [],
        validated := true }
  else
    { result := Except.error ServiceError.validationError, state := db,
      calls := [], warnings := [], validated := true }

/-- `ModelDBService.get_flow_of_flows`: selects matching `FlowOfFlows`
rows and returns `[res.flow for res in result]`, the member flows; raises
`FlowOfFlowsNotFoundError` on zero rows. -/
def get_flow_of_flows (db : DBState) (kwargs : Criteria) : Outcome (List Row) :=
  if validate_kwargs_exist flowOfFlowsColumns kwargs then
    match db.flowOfFlows.filter (fun f => rowMatches kwargs f.cols) with
    | [] =>
      { result := Except.error ServiceError.flowOfFlowsNotFound, state := db,
        calls := [DriverCall.select], warnings := [], validated := true }
    | r :: rest =>
      { result := Except.ok ((r :: rest).map FofRow.flow), state := db,
        calls := [DriverCall.select], warnings := [], validated := true }
  else
    { result := Except.error ServiceError.validationError, state := db,
      calls := [], warnings := [], validated := true }

/-- `ModelDBService.get_dependencies`: selects all `DeploymentDependency`
rows for the deployment with their `DependencyType` eagerly loaded; raises
`DeploymentNotFoundError` on zero rows.  No kwargs validation step runs
(the method takes an explicit `deployment_id`). -/
def get_dependencies (db : DBState) (deployment_id : Int) : Outcome (List DepRow) :=
  match db.dependencies.filter
      (fun d => rowMatches [("deployment_id", Value.vint deployment_id)] d.cols) with
  | [] =>
    { result := Except.error ServiceError.deploymentNotFound, state := db,
      calls := [DriverCall.select], warnings := [], validated := false }
  | d :: rest =>
    { result := Except.ok (d :: rest), state := db,
      calls := [DriverCall.select], warnings := [], validated := false }

/-- The `if len(result): return result[0] else: return None` pattern every
store method applies to the driver's list of inserted primary keys. -/
def firstOrNone {α : Type} (result : List α) : Option α :=
  match result with
  | [] => none
  | x :: _ => some x

/-- The `Model` row built by `store_model`'s insert statement, with the
auto-increment `model_id` the engine assigns. -/
def modelRowOf (newId : Int) (author laboratory facility beampath description : String) : Row :=
  [("model_id", Value.vint newId),
   ("author", Value.vstr author),
   ("laboratory", Value.vstr laboratory),
   ("facility", Value.vstr facility),
   ("beampath", Value.vstr beampath),
   ("description", Value.vstr description)]

/-- `ModelDBService.store_model`: decorated with
`@validate_kwargs_exist(Model)`, inserts one `Model` row and returns the
first generated identifier, or a null result if the driver returned none.
The modelled driver (`ModelDB.insert` is not among the given sources)
appends the row and returns its auto-increment key. -/
def store_model (db : DBState) (author laboratory facility beampath description : String) :
    Outcome (Option Int) :=
  let row := modelRowOf db.nextId author laboratory facility beampath description
  let inserted := [db.nextId]
  let db2 : DBState := { db with models := db.models ++ [row], nextId := db.nextId + 1 }
  { result := Except.ok (firstOrNone inserted), state := db2,
    calls := [DriverCall.insert], warnings := [], validated := true }

/-- The `Deployment` row built by `store_deployment`'s insert statement;
`deploy_date` is assigned by a server-side default not modelled here, so it
is NULL in the embedded row. -/
def deploymentRowOf (newId model_id : Int) (version source sha256 image : String)
    (is_live : Bool) (asset_dir : Option String) : Row :=
  [("deployment_id", Value.vint newId),
   ("model_id", Value.vint model_id),
   ("version", Value.vstr version),
   ("source", Value.vstr source),
   ("sha256", Value.vstr sha256),
   ("image", Value.vstr image),
   ("is_live", Value.vbool is_live),
   ("asset_dir", match asset_dir with | some s => Value.vstr s | none => Value.vnull),
   ("deploy_date", Value.vnull)]

/-- `ModelDBService.store_deployment`: carries no validation decorator;
inserts one `Deployment` row and returns the first generated identifier or
a null result. -/
def store_deployment (db : DBState) (model_id : Int) (version source sha256 image : String)
    (is_live : Bool) (asset_dir : Option String) : Outcome (Option Int) :=
  let row := deploymentRowOf db.nextId model_id version source sha256 image is_live asset_dir
  let inserted := [db.nextId]
  let db2 : DBState := { db with deployments := db.deployments ++ [row], nextId := db.nextId + 1 }
  { result := Except.ok (firstOrNone inserted), state := db2,
    calls := [DriverCall.insert], warnings := [], validated := false }

/-- `ModelDBService.store_project`: carries no validation decorator;
inserts one `Project` row and returns the inserted name (the table's key)
or a null result. -/
def store_project (db : DBState) (project_name description : String) :
    Outcome (Option String) :=
  let row : Row := [("project_name", Value.vstr project_name),
                    ("description", Value.vstr description)]
  let inserted := [project_name]
  let db2 : DBState := { db with projects := db.projects ++ [row] }
  { result := Except.ok (firstOrNone inserted), state := db2,
    calls := [DriverCall.insert], warnings := [], validated := false }

/-- `ModelDBService.store_flow`: carries no validation decorator; inserts
one `Flow` row and returns the inserted flow id or a null result. -/
def store_flow (db : DBState) (deployment_id : Int) (flow_id flow_name project_name : String) :
    Outcome (Option String) :=
  let row : Row := [("flow_id", Value.vstr flow_id),
                    ("deployment_id", Value.vint deployment_id),
                    ("flow_name", Value.vstr flow_name),
                    ("project_name", Value.vstr project_name)]
  let inserted := [flow_id]
  let db2 : DBState := { db with flows := db.flows ++ [row] }
  { result := Except.ok (firstOrNone inserted), state := db2,
    calls := [DriverCall.insert], warnings := [], validated := false }

/-- A dependency descriptor passed to `store_dependencies`:
`{"name": ..., "type": ..., "source": ..., "local_source": ..., "version": ...}`. -/
structure DependencyDescriptor where
  name : String
  type : String
  source : String
  local_source : Option String
  version : String
deriving DecidableEq, Repr

/-- One single-row insert statement built inside `store_dependencies`'s
loop: explicit column values plus the scalar sub-query
`select(DependencyType.id).filter_by(type=dep["type"])` left embedded,
to be resolved by the engine at execution time. -/
structure DepInsertStmt where
  deployment_id : Int
  name : String
  source : String
  local_source : Option String
  version : String
  type_subquery_label : String
deriving DecidableEq, Repr

/-- The list of insert statements `store_dependencies` builds: one
single-row statement per descriptor. -/
def store_dependencies_stmts (dependencies : List DependencyDescriptor)
    (deployment_id : Int) : List DepInsertStmt :=
  dependencies.map (fun dep =>
    { deployment_id := deployment_id, name := dep.name, source := dep.source,
      local_source := dep.local_source, version := dep.version,
      type_subquery_label := dep.type })

/-- Evaluation of the embedded scalar sub-query: the `id` of the first
`DependencyType` row whose `type` column equals the label. -/
def resolveTypeId (types : List Row) (label : String) : Option Value :=
  match types.filter (rowMatches [("type", Value.vstr label)]) with
  | [] => none
  | r :: _ => r.getVal "id"

/-- The `DeploymentDependency` row an executed statement produces, with its
`DependencyType` reference resolved. -/
def depRowOf (newId : Int) (stmt : DepInsertStmt) (typeId : Value) (typeRow : Row) : DepRow :=
  { cols := [("id", Value.vint newId),
             ("deployment_id", Value.vint stmt.deployment_id),
             ("name", Value.vstr stmt.name),
             ("source", Value.vstr stmt.source),
             ("local_source", match stmt.local_source with
                              | some s => Value.vstr s
                              | none => Value.vnull),
             ("version", Value.vstr stmt.version),
             ("dependency_type_id", typeId)],
    dependency_type := typeRow }

/-- Modelled from the spec: `ModelDB.insert_many` (not among the given
sources).  §5/§7: the batch is issued as one driver call with same-call
atomicity — either every statement executes and all inserted keys are
returned, or the call fails and no row is inserted.  Each statement's
embedded sub-query is evaluated against the `DependencyType` table at
execution time; an unresolvable label fails the batch. -/
def insert_many (db : DBState) (stmts : List DepInsertStmt) :
    Option (List Int × List DepRow) :=
  match stmts with
  | [] => some ([], [])
  | stmt :: rest =>
    match db.dependencyTypes.filter (rowMatches [("type", Value.vstr stmt.type_subquery_label)]) with
    | [] => none
    | typeRow :: _ =>
      match typeRow.getVal "id" with
      | none => none
      | some typeId =>
        match insert_many { db with nextId := db.nextId + 1 } rest with
        | none => none
        | some (ids, rows) =>
          some (db.nextId :: ids, depRowOf db.nextId stmt typeId typeRow :: rows)

/-- `ModelDBService.store_dependencies`: builds one insert statement per
descriptor (each embedding the type sub-query), issues them through a
single `insert_many` driver call, and returns the inserted ids, or a null
result if none were inserted; carries no validation decorator.  A failed
batch leaves the store unchanged. -/
def store_dependencies (db : DBState) (dependencies : List DependencyDescriptor)
    (deployment_id : Int) : Outcome (Option (List Int)) :=
  let stmts := store_dependencies_stmts dependencies deployment_id
  match insert_many db stmts with
  | none =>
    { result := Except.error ServiceError.driverError, state := db,
      calls := [DriverCall.insertMany], warnings := [], validated := false }
  | some (ids, rows) =>
    let db2 : DBState := { db with dependencies := db.dependencies ++ rows,
                                   nextId := db.nextId + ids.length }
    { result := Except.ok (match ids with | [] => none | _ => some ids),
      state := db2,
      calls := [DriverCall.insertMany], warnings := [], validated := false }

/-- `LocalRunConfig` of the run backend adapter: environment mapping and
optional working directory. -/
structure LocalRunConfig where
  env : List (String × String)
  working_dir : Option String
deriving DecidableEq, Repr

/-- The orchestration-engine run descriptor `LocalRun(env=..., working_dir=...)`. -/
structure LocalRun where
  env : List (String × String)
  working_dir : Option String
deriving DecidableEq, Repr

/-- `LocalBackend.get_run` as written in `local.py`: checks
`file_service.dir_exists("local", self.working_dir)` — the backend
object's own `working_dir` attribute, not the run configuration's — and
on success constructs the run descriptor from `run_config`.
`dir_exists` abstracts the injected file service; `backend_working_dir`
is the backend attribute the check reads. -/
def LocalBackend_get_run (backend_working_dir : String) (run_config : LocalRunConfig)
    (dir_exists : String → String → Bool) : Except ServiceError LocalRun :=
  if ¬ dir_exists "local" backend_working_dir then
    Except.error ServiceError.fileNotFound
  else
    Except.ok { env := run_config.env, working_dir := run_config.working_dir }

/-- The empty backing store. -/
def dbEmpty : DBState :=
  { models := [], deployments := [], projects := [], flows := [],
    flowOfFlows := [], dependencies := [], dependencyTypes := [], nextId := 1 }

/-- Whether a driver-call trace consists of `select` calls only. -/
def onlySelects (calls : List DriverCall) : Bool :=
  calls.all (fun c => decide (c = DriverCall.select))

theorem get_model_frame (db : DBState) (kwargs : Criteria) :
    (get_model db kwargs).state = db ∧ onlySelects (get_model db kwargs).calls = true := by
  unfold get_model
  split
  · split <;> exact ⟨rfl, rfl⟩
  · exact ⟨rfl, rfl⟩

theorem get_deployment_frame (db : DBState) (kwargs : Criteria) :
    (get_deployment db kwargs).state = db ∧
      onlySelects (get_deployment db kwargs).calls = true := by
  unfold get_deployment
  split
  · split <;> exact ⟨rfl, rfl⟩
  · exact ⟨rfl, rfl⟩

theorem get_latest_deployment_frame (db : DBState) (kwargs : Criteria) :
    (get_latest_deployment db kwargs).state = db ∧
      onlySelects (get_latest_deployment db kwargs).calls = true := by
  unfold get_latest_deployment
  split
  · split <;> exact ⟨rfl, rfl⟩
  · exact ⟨rfl, rfl⟩

theorem get_project_frame (db : DBState) (kwargs : Criteria) :
    (get_project db kwargs).state = db ∧
      onlySelects (get_project db kwargs).calls = true := by
  unfold get_project
  split
  · split <;> exact ⟨rfl, rfl⟩
  · exact ⟨rfl, rfl⟩

theorem get_flow_frame (db : DBState) (kwargs : Criteria) :
    (get_flow db kwargs).state = db ∧ onlySelects (get_flow db kwargs).calls = true := by
  unfold get_flow
  split
  · split <;> exact ⟨rfl, rfl⟩
  · exact ⟨rfl, rfl⟩

theorem get_flow_of_flows_frame (db : DBState) (kwargs : Criteria) :
    (get_flow_of_flows db kwargs).state = db ∧
      onlySelects (get_flow_of_flows db kwargs).calls = true := by
  unfold get_flow_of_flows
  split
  · split <;> exact ⟨rfl, rfl⟩
  · exact ⟨rfl, rfl⟩

theorem get_dependencies_frame (db : DBState) (deployment_id : Int) :
    (get_dependencies db deployment_id).state = db ∧
      onlySelects (get_dependencies db deployment_id).calls = true := by
  unfold get_dependencies
  split <;> exact ⟨rfl, rfl⟩

/-- C10: every `get_*` operation (`get_model`, `get_deployment`,
`get_latest_deployment`, `get_project`, `get_flow`, `get_flow_of_flows`,
`get_dependencies`) issues only `select` statements to the database driver
and never an insert, and leaves the store state exactly as it was, whether
it returns a value or raises. -/
theorem c10_get_ops_issue_only_selects_and_preserve_state
    (db : DBState) (kwargs : Criteria) (deployment_id : Int) :
    ((get_model db kwargs).state = db ∧
      onlySelects (get_model db kwargs).calls = true) ∧
    ((get_deployment db kwargs).state = db ∧
      onlySelects (get_deployment db kwargs).calls = true) ∧
    ((get_latest_deployment db kwargs).state = db ∧
      onlySelects (get_latest_deployment db kwargs).calls = true) ∧
    ((get_project db kwargs).state = db ∧
      onlySelects (get_project db kwargs).calls = true) ∧
    ((get_flow db kwargs).state = db ∧
      onlySelects (get_flow db kwargs).calls = true) ∧
    ((get_flow_of_flows db kwargs).state = db ∧
      onlySelects (get_flow_of_flows db kwargs).calls = true) ∧
    ((get_dependencies db deployment_id).state = db ∧
      onlySelects (get_dependencies db deployment_id).calls = true) :=
  ⟨get_model_frame db kwargs, get_deployment_frame db kwargs,
   get_latest_deployment_frame db kwargs, get_project_frame db kwargs,
   get_flow_frame db kwargs, get_flow_of_flows_frame db kwargs,
   get_dependencies_frame db deployment_id⟩

/-- C1: for every entity in {Model, Deployment, Project, Flow, FlowOfFlows}
and every valid criteria set matching zero rows, the corresponding `get_*`
call raises that entity's NotFoundError and returns no value; likewise
`get_dependencies` raises `DeploymentNotFoundError` when zero dependency
rows match. -/
theorem c1_zero_rows_raise_not_found_errors
    (db : DBState) (km kd kp kf kff : Criteria) (depId : Int)
    (hmv : validate_kwargs_exist modelColumns km = true)
    (hme : db.models.filter (rowMatches km) = [])
    (hdv : validate_kwargs_exist deploymentColumns kd = true)
    (hde : db.deployments.filter (rowMatches kd) = [])
    (hpv : validate_kwargs_exist projectColumns kp = true)
    (hpe : db.projects.filter (rowMatches kp) = [])
    (hfv : validate_kwargs_exist flowColumns kf = true)
    (hfe : db.flows.filter (rowMatches kf) = [])
    (hgv : validate_kwargs_exist flowOfFlowsColumns kff = true)
    (hge : db.flowOfFlows.filter (fun f => rowMatches kff f.cols) = [])
    (hxe : db.dependencies.filter
      (fun d => rowMatches [("deployment_id", Value.vint depId)] d.cols) = []) :
    (get_model db km).result = Except.error ServiceError.modelNotFound ∧
    (get_deployment db kd).result = Except.error ServiceError.deploymentNotFound ∧
    (get_project db kp).result = Except.error ServiceError.projectNotFound ∧
    (get_flow db kf).result = Except.error ServiceError.flowNotFound ∧
    (get_flow_of_flows db kff).result = Except.error ServiceError.flowOfFlowsNotFound ∧
    (get_dependencies db depId).result = Except.error ServiceError.deploymentNotFound := by
  refine ⟨?_, ?_, ?_, ?_, ?_, ?_⟩
  · simp [get_model, hmv, hme]
  · simp [get_deployment, hdv, hde]
  · simp [get_project, hpv, hpe]
  · simp [get_flow, hfv, hfe]
  · simp [get_flow_of_flows, hgv, hge]
  · simp [get_dependencies, hxe]

/-- Witness for C1 at the empty store with empty criteria. -/
theorem c1_zero_rows_raise_not_found_errors_witness :
    (validate_kwargs_exist modelColumns [] = true ∧
     dbEmpty.models.filter (rowMatches []) = [] ∧
     validate_kwargs_exist deploymentColumns [] = true ∧
     dbEmpty.deployments.filter (rowMatches []) = [] ∧
     validate_kwargs_exist projectColumns [] = true ∧
     dbEmpty.projects.filter (rowMatches []) = [] ∧
     validate_kwargs_exist flowColumns [] = true ∧
     dbEmpty.flows.filter (rowMatches []) = [] ∧
     validate_kwargs_exist flowOfFlowsColumns [] = true ∧
     dbEmpty.flowOfFlows.filter (fun f => rowMatches [] f.cols) = [] ∧
     dbEmpty.dependencies.filter
       (fun d => rowMatches [("deployment_id", Value.vint 0)] d.cols) = []) ∧
    ((get_model dbEmpty []).result = Except.error ServiceError.modelNotFound ∧
     (get_deployment dbEmpty []).result = Except.error ServiceError.deploymentNotFound ∧
     (get_project dbEmpty []).result = Except.error ServiceError.projectNotFound ∧
     (get_flow dbEmpty []).result = Except.error ServiceError.flowNotFound ∧
     (get_flow_of_flows dbEmpty []).result = Except.error ServiceError.flowOfFlowsNotFound ∧
     (get_dependencies dbEmpty 0).result = Except.error ServiceError.deploymentNotFound) :=
  ⟨⟨rfl, rfl, rfl, rfl, rfl, rfl, rfl, rfl, rfl, rfl, rfl⟩,
   c1_zero_rows_raise_not_found_errors dbEmpty [] [] [] [] [] 0
     rfl rfl rfl rfl rfl rfl rfl rfl rfl rfl rfl⟩

theorem validate_kwargs_exist_eq_false_of_bad_key
    {columns : List String} {kwargs : Criteria} {k : String} {v : Value}
    (hmem : (k, v) ∈ kwargs) (hk : k ∉ columns) :
    validate_kwargs_exist columns kwargs = false := by
  unfold validate_kwargs_exist
  rw [Bool.eq_false_iff]
  intro hall
  have h2 := List.all_eq_true.mp hall (k, v) hmem
  simp at h2
  exact hk h2

/-- C2: for every `get_*` operation taking criteria and every criteria set
containing at least one key that is not a declared column of the target
entity, the call fails with a validation error before any query is issued:
the driver's `select` is invoked zero times on that call. -/
theorem c2_unknown_key_fails_before_any_query
    (db : DBState) (km kd kl kp kf kff : Criteria)
    (hm : ∃ kv, kv ∈ km ∧ kv.1 ∉ modelColumns)
    (hd : ∃ kv, kv ∈ kd ∧ kv.1 ∉ deploymentColumns)
    (hl : ∃ kv, kv ∈ kl ∧ kv.1 ∉ deploymentColumns)
    (hp : ∃ kv, kv ∈ kp ∧ kv.1 ∉ projectColumns)
    (hf : ∃ kv, kv ∈ kf ∧ kv.1 ∉ flowColumns)
    (hg : ∃ kv, kv ∈ kff ∧ kv.1 ∉ flowOfFlowsColumns) :
    ((get_model db km).result = Except.error ServiceError.validationError ∧
      (get_model db km).calls = []) ∧
    ((get_deployment db kd).result = Except.error ServiceError.validationError ∧
      (get_deployment db kd).calls = []) ∧
    ((get_latest_deployment db kl).result = Except.error ServiceError.validationError ∧
      (get_latest_deployment db kl).calls = []) ∧
    ((get_project db kp).result = Except.error ServiceError.validationError ∧
      (get_project db kp).calls = []) ∧
    ((get_flow db kf).result = Except.error ServiceError.validationError ∧
      (get_flow db kf).calls = []) ∧
    ((get_flow_of_flows db kff).result = Except.error ServiceError.validationError ∧
      (get_flow_of_flows db kff).calls = []) := by
  obtain ⟨kvm, hmm, hmk⟩ := hm
  obtain ⟨kvd, hdm, hdk⟩ := hd
  obtain ⟨kvl, hlm, hlk⟩ := hl
  obtain ⟨kvp, hpm, hpk⟩ := hp
  obtain ⟨kvf, hfm, hfk⟩ := hf
  obtain ⟨kvg, hgm, hgk⟩ := hg
  have h1 := validate_kwargs_exist_eq_false_of_bad_key (v := kvm.2) (by simpa using hmm) hmk
  have h2 := validate_kwargs_exist_eq_false_of_bad_key (v := kvd.2) (by simpa using hdm) hdk
  have h3 := validate_kwargs_exist_eq_false_of_bad_key (v := kvl.2) (by simpa using hlm) hlk
  have h4 := validate_kwargs_exist_eq_false_of_bad_key (v := kvp.2) (by simpa using hpm) hpk
  have h5 := validate_kwargs_exist_eq_false_of_bad_key (v := kvf.2) (by simpa using hfm) hfk
  have h6 := validate_kwargs_exist_eq_false_of_bad_key (v := kvg.2) (by simpa using hgm) hgk
  refine ⟨?_, ?_, ?_, ?_, ?_, ?_⟩
  · simp [get_model, h1]
  · simp [get_deployment, h2]
  · simp [get_latest_deployment, h3]
  · simp [get_project, h4]
  · simp [get_flow, h5]
  · simp [get_flow_of_flows, h6]

/-- Witness for C2 with the unknown criterion key `"bogus"`. -/
theorem c2_unknown_key_fails_before_any_query_witness :
    ((∃ kv, kv ∈ [(("bogus" : String), Value.vnull)] ∧ kv.1 ∉ modelColumns) ∧
     (∃ kv, kv ∈ [(("bogus" : String), Value.vnull)] ∧ kv.1 ∉ deploymentColumns) ∧
     (∃ kv, kv ∈ [(("bogus" : String), Value.vnull)] ∧ kv.1 ∉ projectColumns) ∧
     (∃ kv, kv ∈ [(("bogus" : String), Value.vnull)] ∧ kv.1 ∉ flowColumns) ∧
     (∃ kv, kv ∈ [(("bogus" : String), Value.vnull)] ∧ kv.1 ∉ flowOfFlowsColumns)) ∧
    (((get_model dbEmpty [("bogus", Value.vnull)]).result
        = Except.error ServiceError.validationError ∧
      (get_model dbEmpty [("bogus", Value.vnull)]).calls = []) ∧
     ((get_deployment dbEmpty [("bogus", Value.vnull)]).result
        = Except.error ServiceError.validationError ∧
      (get_deployment dbEmpty [("bogus", Value.vnull)]).calls = []) ∧
     ((get_latest_deployment dbEmpty [("bogus", Value.vnull)]).result
        = Except.error ServiceError.validationError ∧
      (get_latest_deployment dbEmpty [("bogus", Value.vnull)]).calls = []) ∧
     ((get_project dbEmpty [("bogus", Value.vnull)]).result
        = Except.error ServiceError.validationError ∧
      (get_project dbEmpty [("bogus", Value.vnull)]).calls = []) ∧
     ((get_flow dbEmpty [("bogus", Value.vnull)]).result
        = Except.error ServiceError.validationError ∧
      (get_flow dbEmpty [("bogus", Value.vnull)]).calls = []) ∧
     ((get_flow_of_flows dbEmpty [("bogus", Value.vnull)]).result
        = Except.error ServiceError.validationError ∧
      (get_flow_of_flows dbEmpty [("bogus", Value.vnull)]).calls = [])) :=
  ⟨⟨⟨("bogus", Value.vnull), by decide⟩, ⟨("bogus", Value.vnull), by decide⟩,
    ⟨("bogus", Value.vnull), by decide⟩, ⟨("bogus", Value.vnull), by decide⟩,
    ⟨("bogus", Value.vnull), by decide⟩⟩,
   c2_unknown_key_fails_before_any_query dbEmpty
     [("bogus", Value.vnull)] [("bogus", Value.vnull)] [("bogus", Value.vnull)]
     [("bogus", Value.vnull)] [("bogus", Value.vnull)] [("bogus", Value.vnull)]
     ⟨("bogus", Value.vnull), by decide⟩ ⟨("bogus", Value.vnull), by decide⟩
     ⟨("bogus", Value.vnull), by decide⟩ ⟨("bogus", Value.vnull), by decide⟩
     ⟨("bogus", Value.vnull), by decide⟩ ⟨("bogus", Value.vnull), by decide⟩⟩

instance : IsTotal Row (fun a b => deployDate b ≤ deployDate a) :=
  ⟨fun a b => Int.le_total (deployDate b) (deployDate a)⟩

instance : IsTrans Row (fun a b => deployDate b ≤ deployDate a) :=
  ⟨fun _ _ _ hab hbc => le_trans hbc hab⟩

theorem orderByDateDesc_perm (rows : List Row) : (orderByDateDesc rows).Perm rows :=
  List.perm_insertionSort _ rows

theorem orderByDateDesc_head_max (rows : List Row) (a : Row) (t : List Row)
    (heq : orderByDateDesc rows = a :: t) :
    a ∈ rows ∧ ∀ r2 ∈ rows, deployDate r2 ≤ deployDate a := by
  have hperm := orderByDateDesc_perm rows
  rw [heq] at hperm
  have hsort := List.sorted_insertionSort
    (fun a b => deployDate b ≤ deployDate a) rows
  rw [show List.insertionSort (fun a b => deployDate b ≤ deployDate a) rows
        = orderByDateDesc rows from rfl, heq] at hsort
  have hmax := List.pairwise_cons.mp hsort
  constructor
  · exact hperm.mem_iff.mp (List.mem_cons_self a t)
  · intro r2 hr2
    have : r2 ∈ a :: t := hperm.mem_iff.mpr hr2
    rcases List.mem_cons.mp this with h | h
    · exact le_of_eq (by rw [h])
    · exact hmax.1 r2 h

/-- C3: for every criteria set matching at least one `Deployment` row,
`get_latest_deployment` returns a matching row whose `deploy_date` is
maximal among all matches (it orders matches by `deploy_date` descending
and returns the first). -/
theorem c3_latest_deployment_has_max_deploy_date
    (db : DBState) (kwargs : Criteria)
    (hv : validate_kwargs_exist deploymentColumns kwargs = true)
    (hne : db.deployments.filter (rowMatches kwargs) ≠ []) :
    ∃ r, (get_latest_deployment db kwargs).result = Except.ok r ∧
      r ∈ db.deployments.filter (rowMatches kwargs) ∧
      ∀ r2 ∈ db.deployments.filter (rowMatches kwargs),
        deployDate r2 ≤ deployDate r := by
  cases heq : orderByDateDesc (db.deployments.filter (rowMatches kwargs)) with
  | nil =>
    exfalso
    have hperm := orderByDateDesc_perm (db.deployments.filter (rowMatches kwargs))
    rw [heq] at hperm
    exact hne (hperm.nil_eq.symm ▸ rfl)
  | cons a t =>
    have hmax := orderByDateDesc_head_max _ a t heq
    refine ⟨a, ?_, hmax.1, hmax.2⟩
    simp [get_latest_deployment, hv, heq]

/-- A concrete deployment row for model 5 with a given id and deploy date. -/
def depl (id date : Int) : Row :=
  [("deployment_id", Value.vint id), ("model_id", Value.vint 5),
   ("deploy_date", Value.vint date)]

/-- A store holding three deployments of model 5 with deploy dates
10 < 20 < 30, the most recent one in the middle of the return order. -/
def dbC3 : DBState :=
  { dbEmpty with deployments := [depl 1 10, depl 2 30, depl 3 20] }

/-- Witness for C3: among deploy dates 10 < 20 < 30 the call returns a
maximal-date matching row. -/
theorem c3_latest_deployment_has_max_deploy_date_witness :
    (validate_kwargs_exist deploymentColumns [("model_id", Value.vint 5)] = true ∧
     dbC3.deployments.filter (rowMatches [("model_id", Value.vint 5)]) ≠ []) ∧
    (∃ r, (get_latest_deployment dbC3 [("model_id", Value.vint 5)]).result = Except.ok r ∧
      r ∈ dbC3.deployments.filter (rowMatches [("model_id", Value.vint 5)]) ∧
      ∀ r2 ∈ dbC3.deployments.filter (rowMatches [("model_id", Value.vint 5)]),
        deployDate r2 ≤ deployDate r) :=
  ⟨⟨by decide, by decide⟩,
   c3_latest_deployment_has_max_deploy_date dbC3 [("model_id", Value.vint 5)]
     (by decide) (by decide)⟩

/-- C6: for every criteria set selecting `FlowOfFlows` rows,
`get_flow_of_flows` returns exactly the member `Flow` rows of the matching
grouping rows — one `Flow` per matching row, not the grouping records. -/
theorem c6_flow_of_flows_returns_member_flows
    (db : DBState) (kwargs : Criteria)
    (hv : validate_kwargs_exist flowOfFlowsColumns kwargs = true)
    (hne : db.flowOfFlows.filter (fun f => rowMatches kwargs f.cols) ≠ []) :
    (get_flow_of_flows db kwargs).result =
      Except.ok ((db.flowOfFlows.filter (fun f => rowMatches kwargs f.cols)).map
        FofRow.flow) ∧
    ((db.flowOfFlows.filter (fun f => rowMatches kwargs f.cols)).map
        FofRow.flow).length =
      (db.flowOfFlows.filter (fun f => rowMatches kwargs f.cols)).length := by
  cases heq : db.flowOfFlows.filter (fun f => rowMatches kwargs f.cols) with
  | nil => exact absurd heq hne
  | cons a t =>
    constructor
    · simp [get_flow_of_flows, hv, heq]
    · simp

/-- One membership row of the grouping `"p"` holding the member flow with
the given flow id. -/
def fofMember (fid : String) : FofRow :=
  { cols := [("parent_flow_id", Value.vstr "p"), ("flow_id", Value.vstr fid)],
    flow := [("flow_id", Value.vstr fid), ("deployment_id", Value.vint 1),
             ("flow_name", Value.vstr fid), ("project_name", Value.vstr "proj")] }

/-- A store holding one `FlowOfFlows` grouping `"p"` with two member flows. -/
def dbC6 : DBState :=
  { dbEmpty with flowOfFlows := [fofMember "f1", fofMember "f2"] }

/-- Witness for C6: the two-member grouping yields exactly its two member
flows. -/
theorem c6_flow_of_flows_returns_member_flows_witness :
    (validate_kwargs_exist flowOfFlowsColumns
        [("parent_flow_id", Value.vstr "p")] = true ∧
     dbC6.flowOfFlows.filter
        (fun f => rowMatches [("parent_flow_id", Value.vstr "p")] f.cols) ≠ []) ∧
    ((get_flow_of_flows dbC6 [("parent_flow_id", Value.vstr "p")]).result =
      Except.ok ((dbC6.flowOfFlows.filter
        (fun f => rowMatches [("parent_flow_id", Value.vstr "p")] f.cols)).map
          FofRow.flow) ∧
     ((dbC6.flowOfFlows.filter
        (fun f => rowMatches [("parent_flow_id", Value.vstr "p")] f.cols)).map
          FofRow.flow).length =
       (dbC6.flowOfFlows.filter
        (fun f => rowMatches [("parent_flow_id", Value.vstr "p")] f.cols)).length) :=
  ⟨⟨by decide, by decide⟩,
   c6_flow_of_flows_returns_member_flows dbC6 [("parent_flow_id", Value.vstr "p")]
     (by decide) (by decide)⟩

/-- C8: for every criteria set under which the driver returns more than
one matching row, `get_model`, `get_deployment`, `get_project` and
`get_flow` each log a warning and return the first row in the driver's
return order; the multiple-match condition never fails the call. -/
theorem c8_multiple_matches_warn_and_return_first
    (db : DBState) (km kd kp kf : Criteria)
    (hvm : validate_kwargs_exist modelColumns km = true)
    (hm : 1 < (db.models.filter (rowMatches km)).length)
    (hvd : validate_kwargs_exist deploymentColumns kd = true)
    (hd : 1 < (db.deployments.filter (rowMatches kd)).length)
    (hvp : validate_kwargs_exist projectColumns kp = true)
    (hp : 1 < (db.projects.filter (rowMatches kp)).length)
    (hvf : validate_kwargs_exist flowColumns kf = true)
    (hf : 1 < (db.flows.filter (rowMatches kf)).length) :
    (∃ r t, db.models.filter (rowMatches km) = r :: t ∧
      (get_model db km).result = Except.ok r ∧ (get_model db km).warnings ≠ []) ∧
    (∃ r t, db.deployments.filter (rowMatches kd) = r :: t ∧
      (get_deployment db kd).result = Except.ok r ∧
      (get_deployment db kd).warnings ≠ []) ∧
    (∃ r t, db.projects.filter (rowMatches kp) = r :: t ∧
      (get_project db kp).result = Except.ok r ∧
      (get_project db kp).warnings ≠ []) ∧
    (∃ r t, db.flows.filter (rowMatches kf) = r :: t ∧
      (get_flow db kf).result = Except.ok r ∧ (get_flow db kf).warnings ≠ []) := by
  refine ⟨?_, ?_, ?_, ?_⟩
  · cases heq : db.models.filter (rowMatches km) with
    | nil => rw [heq] at hm; simp at hm
    | cons r t =>
      have ht : 0 < t.length := by rw [heq] at hm; simpa using hm
      exact ⟨r, t, rfl, by simp [get_model, hvm, heq], by simp [get_model, hvm, heq, ht]⟩
  · cases heq : db.deployments.filter (rowMatches kd) with
    | nil => rw [heq] at hd; simp at hd
    | cons r t =>
      have ht : 0 < t.length := by rw [heq] at hd; simpa using hd
      exact ⟨r, t, rfl, by simp [get_deployment, hvd, heq],
        by simp [get_deployment, hvd, heq, ht]⟩
  · cases heq : db.projects.filter (rowMatches kp) with
    | nil => rw [heq] at hp; simp at hp
    | cons r t =>
      have ht : 0 < t.length := by rw [heq] at hp; simpa using hp
      exact ⟨r, t, rfl, by simp [get_project, hvp, heq],
        by simp [get_project, hvp, heq, ht]⟩
  · cases heq : db.flows.filter (rowMatches kf) with
    | nil => rw [heq] at hf; simp at hf
    | cons r t =>
      have ht : 0 < t.length := by rw [heq] at hf; simpa using hf
      exact ⟨r, t, rfl, by simp [get_flow, hvf, heq], by simp [get_flow, hvf, heq, ht]⟩

/-- A store holding two rows in each of the Model, Deployment, Project and
Flow tables, every pair matching the empty criteria set. -/
def dbC8 : DBState :=
  { dbEmpty with
    models := [modelRowOf 1 "a" "l" "f" "b" "d1", modelRowOf 2 "a" "l" "f" "b" "d2"],
    deployments := [depl 1 10, depl 2 20],
    projects := [[("project_name", Value.vstr "p1"), ("description", Value.vstr "x")],
                 [("project_name", Value.vstr "p2"), ("description", Value.vstr "y")]],
    flows := [[("flow_id", Value.vstr "f1"), ("deployment_id", Value.vint 1),
               ("flow_name", Value.vstr "n1"), ("project_name", Value.vstr "p1")],
              [("flow_id", Value.vstr "f2"), ("deployment_id", Value.vint 1),
               ("flow_name", Value.vstr "n2"), ("project_name", Value.vstr "p1")]] }

/-- Witness for C8 on a store with two matching rows per table. -/
theorem c8_multiple_matches_warn_and_return_first_witness :
    (validate_kwargs_exist modelColumns [] = true ∧
     1 < (dbC8.models.filter (rowMatches [])).length ∧
     validate_kwargs_exist deploymentColumns [] = true ∧
     1 < (dbC8.deployments.filter (rowMatches [])).length ∧
     validate_kwargs_exist projectColumns [] = true ∧
     1 < (dbC8.projects.filter (rowMatches [])).length ∧
     validate_kwargs_exist flowColumns [] = true ∧
     1 < (dbC8.flows.filter (rowMatches [])).length) ∧
    ((∃ r t, dbC8.models.filter (rowMatches []) = r :: t ∧
       (get_model dbC8 []).result = Except.ok r ∧ (get_model dbC8 []).warnings ≠ []) ∧
     (∃ r t, dbC8.deployments.filter (rowMatches []) = r :: t ∧
       (get_deployment dbC8 []).result = Except.ok r ∧
       (get_deployment dbC8 []).warnings ≠ []) ∧
     (∃ r t, dbC8.projects.filter (rowMatches []) = r :: t ∧
       (get_project dbC8 []).result = Except.ok r ∧
       (get_project dbC8 []).warnings ≠ []) ∧
     (∃ r t, dbC8.flows.filter (rowMatches []) = r :: t ∧
       (get_flow dbC8 []).result = Except.ok r ∧ (get_flow dbC8 []).warnings ≠ [])) :=
  ⟨⟨by decide, by decide, by decide, by decide, by decide, by decide, by decide,
    by decide⟩,
   c8_multiple_matches_warn_and_return_first dbC8 [] [] [] []
     (by decide) (by decide) (by decide) (by decide)
     (by decide) (by decide) (by decide) (by decide)⟩

instance {ε α : Type} [DecidableEq ε] [DecidableEq α] : DecidableEq (Except ε α) :=
  fun a b =>
    match a, b with
    | Except.ok x, Except.ok y =>
      if h : x = y then isTrue (by rw [h])
      else isFalse (by intro hc; cases hc; exact h rfl)
    | Except.error x, Except.error y =>
      if h : x = y then isTrue (by rw [h])
      else isFalse (by intro hc; cases hc; exact h rfl)
    | Except.ok _, Except.error _ => isFalse (by intro hc; cases hc)
    | Except.error _, Except.ok _ => isFalse (by intro hc; cases hc)

theorem insert_many_lengths (stmts : List DepInsertStmt) :
    ∀ (db : DBState) (ids : List Int) (rows : List DepRow),
      insert_many db stmts = some (ids, rows) →
      ids.length = stmts.length ∧ rows.length = stmts.length := by
  induction stmts with
  | nil =>
    intro db ids rows h
    unfold insert_many at h
    simp at h
    simp [h.1, h.2]
  | cons s rest ih =>
    intro db ids rows h
    unfold insert_many at h
    cases hft : db.dependencyTypes.filter
        (rowMatches [("type", Value.vstr s.type_subquery_label)]) with
    | nil => rw [hft] at h; simp at h
    | cons tr trs =>
      rw [hft] at h
      dsimp only at h
      cases hgv : tr.getVal "id" with
      | none => rw [hgv] at h; simp at h
      | some tid =>
        rw [hgv] at h
        dsimp only at h
        cases hrec : insert_many { db with nextId := db.nextId + 1 } rest with
        | none => rw [hrec] at h; simp at h
        | some p =>
          rw [hrec] at h
          obtain ⟨ids2, rows2⟩ := p
          simp at h
          obtain ⟨hlen1, hlen2⟩ := ih _ ids2 rows2 hrec
          simp [← h.1, ← h.2, hlen1, hlen2]

/-- A first concrete dependency descriptor. -/
def depA : DependencyDescriptor :=
  { name := "numpy", type := "conda", source := "s1", local_source := none,
    version := "1.0" }

/-- A second concrete dependency descriptor. -/
def depB : DependencyDescriptor :=
  { name := "pandas", type := "conda", source := "s2", local_source := none,
    version := "2.0" }

/-- Counterexample to C4 as stated: for the two-descriptor input,
`store_dependencies` does not build one multi-row statement for all rows;
it builds two single-row insert statements (one per descriptor, each
embedding its own type sub-query) and hands the list to the driver's
`insert_many`. -/
theorem c4_counterexample_one_statement_per_row :
    (store_dependencies_stmts [depA, depB] 7).length = 2 ∧
    ¬ (store_dependencies_stmts [depA, depB] 7).length = 1 := by decide

/-- C4 amended: `store_dependencies` builds one single-row insert statement
per descriptor, each resolving its `type` via an embedded sub-query, and
issues the whole list through a single `insert_many` driver call; when the
batch succeeds it returns exactly N identifiers (a null result when N = 0)
and exactly N rows are appended, and when the batch fails the store is
unchanged — no partial insert is observable. -/
theorem c4_amended_store_dependencies_per_row_batch
    (db : DBState) (deps : List DependencyDescriptor) (depId : Int) :
    (store_dependencies_stmts deps depId).length = deps.length ∧
    (store_dependencies db deps depId).calls = [DriverCall.insertMany] ∧
    (∀ ids rows,
      insert_many db (store_dependencies_stmts deps depId) = some (ids, rows) →
      ids.length = deps.length ∧ rows.length = deps.length ∧
      (store_dependencies db deps depId).result =
        Except.ok (match ids with | [] => none | _ :: _ => some ids) ∧
      (store_dependencies db deps depId).state.dependencies =
        db.dependencies ++ rows) ∧
    (insert_many db (store_dependencies_stmts deps depId) = none →
      (store_dependencies db deps depId).result =
        Except.error ServiceError.driverError ∧
      (store_dependencies db deps depId).state = db) := by
  refine ⟨by simp [store_dependencies_stmts], ?_, ?_, ?_⟩
  · cases h : insert_many db (store_dependencies_stmts deps depId) with
    | none => simp only [store_dependencies]; rw [h]
    | some p =>
      obtain ⟨ids, rows⟩ := p
      simp only [store_dependencies]
      rw [h]
  · intro ids rows h
    obtain ⟨hlen1, hlen2⟩ := insert_many_lengths _ db ids rows h
    have hs : (store_dependencies_stmts deps depId).length = deps.length := by
      simp [store_dependencies_stmts]
    refine ⟨hs ▸ hlen1, hs ▸ hlen2, ?_, ?_⟩
    · simp only [store_dependencies]
      rw [h]
      cases ids <;> rfl
    · simp only [store_dependencies]
      rw [h]
  · intro h
    simp only [store_dependencies]
    rw [h]
    exact ⟨rfl, rfl⟩

/-- The `conda` dependency-type row used by the C4 witness store. -/
def typeRowC4 : Row := [("id", Value.vint 1), ("type", Value.vstr "conda")]

/-- A store with a single resolvable dependency type and no dependencies. -/
def dbC4 : DBState := { dbEmpty with dependencyTypes := [typeRowC4] }

/-- The insert statement `store_dependencies` builds for `depA`. -/
def stmtA : DepInsertStmt :=
  { deployment_id := 7, name := "numpy", source := "s1", local_source := none,
    version := "1.0", type_subquery_label := "conda" }

/-- The insert statement `store_dependencies` builds for `depB`. -/
def stmtB : DepInsertStmt :=
  { deployment_id := 7, name := "pandas", source := "s2", local_source := none,
    version := "2.0", type_subquery_label := "conda" }

/-- The two dependency rows the batch insert of `[depA, depB]` produces. -/
def rowsC4 : List DepRow :=
  [depRowOf 1 stmtA (Value.vint 1) typeRowC4,
   depRowOf 2 stmtB (Value.vint 1) typeRowC4]

/-- Witness for the amended C4: a two-descriptor batch builds two
statements, issues one `insert_many` call, returns two ids and appends two
rows. -/
theorem c4_amended_store_dependencies_per_row_batch_witness :
    (store_dependencies_stmts [depA, depB] 7).length = 2 ∧
    (store_dependencies dbC4 [depA, depB] 7).calls = [DriverCall.insertMany] ∧
    insert_many dbC4 (store_dependencies_stmts [depA, depB] 7) =
      some ([1, 2], rowsC4) ∧
    (store_dependencies dbC4 [depA, depB] 7).result = Except.ok (some [1, 2]) ∧
    (store_dependencies dbC4 [depA, depB] 7).state.dependencies =
      dbC4.dependencies ++ rowsC4 := by
  have hm : insert_many dbC4 (store_dependencies_stmts [depA, depB] 7) =
      some ([1, 2], rowsC4) := by rfl
  obtain ⟨h1, h2, h3, h4⟩ :=
    c4_amended_store_dependencies_per_row_batch dbC4 [depA, depB] 7
  obtain ⟨g1, g2, g3, g4⟩ := h3 [1, 2] rowsC4 hm
  exact ⟨h1, h2, hm, g3, g4⟩

theorem modelRowOf_matches (newId : Int) (a l f b d : String) :
    rowMatches [("author", Value.vstr a), ("laboratory", Value.vstr l),
                ("facility", Value.vstr f), ("beampath", Value.vstr b)]
      (modelRowOf newId a l f b d) = true := by
  simp [rowMatches, modelRowOf, Row.getVal]

/-- A store already holding a `Model` row with author `"a"`, laboratory
`"l"`, facility `"f"`, beampath `"b"` (and id 1). -/
def dbC7 : DBState :=
  { dbEmpty with models := [modelRowOf 1 "a" "l" "f" "b" "old"], nextId := 2 }

/-- Counterexample to C7 as stated: starting from a store that already
holds a matching `Model` row, `store_model` returns the new id 2, but the
subsequent `get_model` over the stored author/laboratory/facility/beampath
returns the first matching row in driver order — the pre-existing row with
id 1, not the id `store_model` returned. -/
theorem c7_counterexample_roundtrip_returns_first_match :
    (store_model dbC7 "a" "l" "f" "b" "new").result = Except.ok (some 2) ∧
    (get_model (store_model dbC7 "a" "l" "f" "b" "new").state
      [("author", Value.vstr "a"), ("laboratory", Value.vstr "l"),
       ("facility", Value.vstr "f"), ("beampath", Value.vstr "b")]).result =
      Except.ok (modelRowOf 1 "a" "l" "f" "b" "old") ∧
    (modelRowOf 1 "a" "l" "f" "b" "old").getVal "model_id" = some (Value.vint 1) ∧
    ¬ (modelRowOf 1 "a" "l" "f" "b" "old").getVal "model_id" = some (Value.vint 2) := by
  refine ⟨rfl, by rfl, rfl, by decide⟩

/-- C7 amended: `store_model` returns the generated identifier of the
inserted row (the modelled driver always yields one); provided no
pre-existing row matches the stored author, laboratory, facility and
beampath, a subsequent `get_model` with those criteria returns the newly
inserted record, whose fields equal the inputs and whose identifier equals
the value `store_model` returned. -/
theorem c7_amended_store_model_roundtrip
    (db : DBState) (author laboratory facility beampath description : String)
    (hno : db.models.filter (rowMatches
      [("author", Value.vstr author), ("laboratory", Value.vstr laboratory),
       ("facility", Value.vstr facility), ("beampath", Value.vstr beampath)]) = []) :
    (store_model db author laboratory facility beampath description).result =
      Except.ok (some db.nextId) ∧
    (get_model (store_model db author laboratory facility beampath description).state
      [("author", Value.vstr author), ("laboratory", Value.vstr laboratory),
       ("facility", Value.vstr facility), ("beampath", Value.vstr beampath)]).result =
      Except.ok (modelRowOf db.nextId author laboratory facility beampath description) ∧
    (modelRowOf db.nextId author laboratory facility beampath description).getVal
      "model_id" = some (Value.vint db.nextId) ∧
    (modelRowOf db.nextId author laboratory facility beampath description).getVal
      "author" = some (Value.vstr author) ∧
    (modelRowOf db.nextId author laboratory facility beampath description).getVal
      "laboratory" = some (Value.vstr laboratory) ∧
    (modelRowOf db.nextId author laboratory facility beampath description).getVal
      "facility" = some (Value.vstr facility) ∧
    (modelRowOf db.nextId author laboratory facility beampath description).getVal
      "beampath" = some (Value.vstr beampath) ∧
    (modelRowOf db.nextId author laboratory facility beampath description).getVal
      "description" = some (Value.vstr description) := by
  refine ⟨rfl, ?_, rfl, rfl, rfl, rfl, rfl, rfl⟩
  have hstate : (store_model db author laboratory facility beampath description).state.models
      = db.models ++ [modelRowOf db.nextId author laboratory facility beampath description] :=
    rfl
  have hval : validate_kwargs_exist modelColumns
      [("author", Value.vstr author), ("laboratory", Value.vstr laboratory),
       ("facility", Value.vstr facility), ("beampath", Value.vstr beampath)] = true := rfl
  simp [get_model, hval, hstate, List.filter_append, hno, modelRowOf_matches]

/-- Witness for the amended C7 starting from the empty store. -/
theorem c7_amended_store_model_roundtrip_witness :
    (dbEmpty.models.filter (rowMatches
      [("author", Value.vstr "a"), ("laboratory", Value.vstr "l"),
       ("facility", Value.vstr "f"), ("beampath", Value.vstr "b")]) = []) ∧
    ((store_model dbEmpty "a" "l" "f" "b" "desc").result = Except.ok (some 1) ∧
     (get_model (store_model dbEmpty "a" "l" "f" "b" "desc").state
       [("author", Value.vstr "a"), ("laboratory", Value.vstr "l"),
        ("facility", Value.vstr "f"), ("beampath", Value.vstr "b")]).result =
       Except.ok (modelRowOf 1 "a" "l" "f" "b" "desc") ∧
     (modelRowOf 1 "a" "l" "f" "b" "desc").getVal "model_id" = some (Value.vint 1) ∧
     (modelRowOf 1 "a" "l" "f" "b" "desc").getVal "author" = some (Value.vstr "a") ∧
     (modelRowOf 1 "a" "l" "f" "b" "desc").getVal "laboratory" = some (Value.vstr "l") ∧
     (modelRowOf 1 "a" "l" "f" "b" "desc").getVal "facility" = some (Value.vstr "f") ∧
     (modelRowOf 1 "a" "l" "f" "b" "desc").getVal "beampath" = some (Value.vstr "b") ∧
     (modelRowOf 1 "a" "l" "f" "b" "desc").getVal "description" =
       some (Value.vstr "desc")) :=
  ⟨rfl, c7_amended_store_model_roundtrip dbEmpty "a" "l" "f" "b" "desc" rfl⟩

/-- Counterexample to C9 as stated: `store_deployment` issues its insert
without any validation step having run (only `store_model` carries the
`@validate_kwargs_exist` decorator in the source). -/
theorem c9_counterexample_store_deployment_no_validation :
    (store_deployment dbEmpty 1 "v1" "src" "sha" "img" false none).validated = false ∧
    (store_deployment dbEmpty 1 "v1" "src" "sha" "img" false none).calls =
      [DriverCall.insert] := by
  exact ⟨rfl, rfl⟩

/-- C9 amended: among the store operations only `store_model` performs a
validation step before its insert; `store_deployment`, `store_project`,
`store_flow` and `store_dependencies` issue their inserts directly with no
validation, while every criteria-taking `get_*` operation does validate. -/
theorem c9_amended_only_store_model_validates
    (db : DBState) (author laboratory facility beampath description : String)
    (model_id deployment_id : Int) (version source sha256 image : String)
    (is_live : Bool) (asset_dir : Option String)
    (project_name flow_id flow_name : String)
    (deps : List DependencyDescriptor) (kwargs : Criteria) :
    (store_model db author laboratory facility beampath description).validated = true ∧
    (store_deployment db model_id version source sha256 image is_live
      asset_dir).validated = false ∧
    (store_deployment db model_id version source sha256 image is_live asset_dir).calls =
      [DriverCall.insert] ∧
    (store_project db project_name description).validated = false ∧
    (store_project db project_name description).calls = [DriverCall.insert] ∧
    (store_flow db deployment_id flow_id flow_name project_name).validated = false ∧
    (store_flow db deployment_id flow_id flow_name project_name).calls =
      [DriverCall.insert] ∧
    (store_dependencies db deps deployment_id).validated = false ∧
    (get_model db kwargs).validated = true ∧
    (get_deployment db kwargs).validated = true ∧
    (get_latest_deployment db kwargs).validated = true ∧
    (get_project db kwargs).validated = true ∧
    (get_flow db kwargs).validated = true ∧
    (get_flow_of_flows db kwargs).validated = true := by
  refine ⟨rfl, rfl, rfl, rfl, rfl, rfl, rfl, ?_, ?_, ?_, ?_, ?_, ?_, ?_⟩
  · cases h : insert_many db (store_dependencies_stmts deps deployment_id) with
    | none => simp only [store_dependencies]; rw [h]
    | some p =>
      obtain ⟨ids, rows⟩ := p
      simp only [store_dependencies]
      rw [h]
  · unfold get_model
    split
    · split <;> rfl
    · rfl
  · unfold get_deployment
    split
    · split <;> rfl
    · rfl
  · unfold get_latest_deployment
    split
    · split <;> rfl
    · rfl
  · unfold get_project
    split
    · split <;> rfl
    · rfl
  · unfold get_flow
    split
    · split <;> rfl
    · rfl
  · unfold get_flow_of_flows
    split
    · split <;> rfl
    · rfl

/-- A file service for which only the directory `"/exists"` exists, in any
namespace. -/
def fsC5 : String → String → Bool := fun _ p => decide (p = "/exists")

/-- C5 evaluated at the failing input: the run configuration's working
directory `"/missing"` does not exist per the file service, yet `get_run`
returns a run descriptor carrying that directory, because the existence
check reads the backend object's own `working_dir` attribute
(`self.working_dir`), not the run configuration's; conversely the call
fails when the backend attribute's directory is the missing one. -/
theorem c5_get_run_checks_backend_attribute_not_run_config :
    fsC5 "local" "/missing" = false ∧
    LocalBackend_get_run "/exists"
      { env := [("KEY", "VAL")], working_dir := some "/missing" } fsC5 =
      Except.ok { env := [("KEY", "VAL")], working_dir := some "/missing" } ∧
    LocalBackend_get_run "/missing"
      { env := [("KEY", "VAL")], working_dir := some "/exists" } fsC5 =
      Except.error ServiceError.fileNotFound := by
  exact ⟨rfl, rfl, rfl⟩
